import Mathlib

/-!
Shallow embedding of the authentication / refresh-token-rotation core of the
e-commerce backend (`src/services/authService.ts`, `src/services/customerService.ts`,
`src/middleware/auth.ts`, `src/middleware/csrf.ts`, `src/routes` refresh endpoint,
`src/config/env.ts`), together with theorems settling the frozen claims about it.

Modelling conventions:
  * Time is a `Nat` of milliseconds since the epoch (`Date.now()` in the source);
    a JS `Date` value is its millisecond timestamp.
  * Randomness (`crypto.randomBytes`) and database-assigned surrogate ids are
    passed in as explicit parameters.
  * External one-way digests (`crypto.createHash('sha256')`, bcrypt) are modelled
    by injective tagging functions: the code relies only on determinism and
    collision-freedom of the digest.
  * The Prisma store is a `List` of records; `findFirst`/`findUnique` is `List.find?`,
    `updateMany`/`update` is `List.map` guarded by the `where` clause, `create`
    appends.
  * A thrown `AppError` is the `.error` branch of `Except`; operations that
    mutate the store before/after throwing return the resulting store alongside.
-/

namespace ECom

/-- `AppError` from `src/middleware/errorHandler.ts`: message, HTTP status and
stable machine-readable code. -/
structure AppError where
  message : String
  statusCode : Nat
  code : String
deriving DecidableEq, Repr

/-- `throw new AppError('Invalid refresh token', 401, 'INVALID_REFRESH')`. -/
def invalidRefreshError : AppError := ⟨"Invalid refresh token", 401, "INVALID_REFRESH"⟩

/-- `throw new AppError('Refresh token reused', 401, 'REFRESH_REUSE')`. -/
def refreshReuseError : AppError := ⟨"Refresh token reused", 401, "REFRESH_REUSE"⟩

/-- `throw new AppError('Refresh token expired', 401, 'REFRESH_EXPIRED')`. -/
def refreshExpiredError : AppError := ⟨"Refresh token expired", 401, "REFRESH_EXPIRED"⟩

/-- `throw new AppError('Invalid or expired token', 401, 'INVALID_TOKEN')`. -/
def invalidTokenError : AppError := ⟨"Invalid or expired token", 401, "INVALID_TOKEN"⟩

/-- `throw new AppError('Invalid email or password', 401, 'INVALID_CREDENTIALS')`. -/
def invalidCredentialsError : AppError := ⟨"Invalid email or password", 401, "INVALID_CREDENTIALS"⟩

/-- `throw new AppError('Admin account is deactivated', 401, 'ACCOUNT_DEACTIVATED')`. -/
def accountDeactivatedError : AppError := ⟨"Admin account is deactivated", 401, "ACCOUNT_DEACTIVATED"⟩

/-- `throw new AppError('Admin not found', 404, 'ADMIN_NOT_FOUND')`. -/
def adminNotFoundError : AppError := ⟨"Admin not found", 404, "ADMIN_NOT_FOUND"⟩

/-- `throw new AppError('Customer not found', 404, 'CUSTOMER_NOT_FOUND')`. -/
def customerNotFoundError : AppError := ⟨"Customer not found", 404, "CUSTOMER_NOT_FOUND"⟩

/-- `throw new AppError('Access token is required', 401, 'TOKEN_REQUIRED')`. -/
def tokenRequiredError : AppError := ⟨"Access token is required", 401, "TOKEN_REQUIRED"⟩

/-- `throw new AppError('Invalid token type', 401, 'INVALID_TOKEN_TYPE')`. -/
def invalidTokenTypeError : AppError := ⟨"Invalid token type", 401, "INVALID_TOKEN_TYPE"⟩

/-- `res.status(401).json({ error: { code: 'REFRESH_REQUIRED', ... } })` from the
cookie-based refresh route. -/
def refreshRequiredError : AppError := ⟨"Refresh token required", 401, "REFRESH_REQUIRED"⟩

/-! ## Configuration (`src/config/env.ts`) -/

/-- The environment configuration consumed by the auth core.
`JWT_EXPIRES_HOURS` defaults to `'8'` (hours) in `envSchema`. -/
structure Env where
  jwtSecret : String
  jwtExpiresHours : Nat
deriving DecidableEq

/-- The default environment: `JWT_EXPIRES_HOURS` absent, so the zod default `'8'`
applies. -/
def defaultEnv : Env := { jwtSecret := "s", jwtExpiresHours := 8 }

/-! ## Access Token Issuer (`jwt.sign` / `jwt.verify` in `AuthService`) -/

/-- The JWT payload minted by `generateToken` / `generateCustomerToken`:
`{ adminId, type: 'admin' }` or `{ customerId, type: 'customer' }`, plus the
`exp` claim that `expiresIn` adds (held here in milliseconds). -/
structure JwtPayload where
  adminId : Option Nat
  customerId : Option Nat
  type : String
  exp : Nat
deriving DecidableEq, Repr

/-- The external HMAC of the jsonwebtoken library, modelled as an injective
pairing of secret and payload (the code relies only on unforgeability and
determinism). -/
def jwtMac (secret : String) (p : JwtPayload) : String × JwtPayload := (secret, p)

/-- A signed token: payload plus signature. -/
structure SignedToken where
  payload : JwtPayload
  sig : String × JwtPayload
deriving DecidableEq

/-- `jwt.sign(payload, secret, { expiresIn })`: the `exp` claim is already part of
the payload here. -/
def jwtSign (p : JwtPayload) (secret : String) : SignedToken :=
  { payload := p, sig := jwtMac secret p }

/-- `jwt.verify(token, secret)`: checks the signature and that the token is not
expired (`none` models the thrown `TokenExpiredError`/`JsonWebTokenError`). -/
def jwtVerify (t : SignedToken) (secret : String) (now : Nat) : Option JwtPayload :=
  if t.sig = jwtMac secret t.payload ∧ now < t.payload.exp then some t.payload else none

/-- `AuthService.generateToken(adminId)`: signs `{ adminId, type: 'admin' }` with
`expiresIn: env.JWT_EXPIRES_HOURS` hours. `now` is the mint time in ms. -/
def generateToken (env : Env) (adminId : Nat) (now : Nat) : SignedToken :=
  jwtSign { adminId := some adminId, customerId := none, type := "admin",
            exp := now + env.jwtExpiresHours * 60 * 60 * 1000 } env.jwtSecret

/-- `AuthService.generateCustomerToken(customerId)`: signs
`{ customerId, type: 'customer' }` with `expiresIn: env.JWT_EXPIRES_HOURS` hours. -/
def generateCustomerToken (env : Env) (customerId : Nat) (now : Nat) : SignedToken :=
  jwtSign { adminId := none, customerId := some customerId, type := "customer",
            exp := now + env.jwtExpiresHours * 60 * 60 * 1000 } env.jwtSecret

/-- `AuthService.verifyToken(token)`: returns the decoded payload, or throws
`invalidTokenError` when `jwt.verify` throws. -/
def verifyToken (env : Env) (t : SignedToken) (now : Nat) : Except AppError JwtPayload :=
  match jwtVerify t env.jwtSecret now with
  | some p => .ok p
  | none => .error invalidTokenError

/-! ## Refresh Token Manager (`AuthService` rotation state machine) -/

/-- One row of the Prisma `refreshToken` table (see `prisma` schema and
`issueRefreshToken`): surrogate id, owner (admin XOR customer), family key,
token digest, expiry, optional revocation timestamp and successor link. -/
structure RefreshTokenRecord where
  id : Nat
  adminId : Option Nat
  customerId : Option Nat
  familyId : String
  tokenHash : String
  expiresAt : Nat
  revokedAt : Option Nat
  replacedById : Option Nat
deriving DecidableEq, Repr

/-- The persisted refresh-token table. -/
abbrev RefreshStore := List RefreshTokenRecord

/-- `crypto.createHash('sha256').update(plain).digest('hex')` — modelled as an
injective tag; the code relies only on determinism and collision-freedom. -/
def hashToken (plain : String) : String := String.append "sha256:" plain

/-- `AuthService.findRefreshTokenByPlain`: digest-then-lookup,
`prisma.refreshToken.findFirst({ where: { tokenHash } })`. -/
def findRefreshTokenByPlain (store : RefreshStore) (plain : String) :
    Option RefreshTokenRecord :=
  store.find? (fun r => r.tokenHash = hashToken plain)

/-- `AuthService.revokeRefreshFamilyByFamilyId`:
`updateMany({ where: { familyId, revokedAt: null }, data: { revokedAt: new Date() } })`. -/
def revokeRefreshFamilyByFamilyId (store : RefreshStore) (familyId : String)
    (now : Nat) : RefreshStore :=
  store.map (fun r =>
    if r.familyId = familyId ∧ r.revokedAt = none
    then { r with revokedAt := some now } else r)

/-- Refresh-token TTL: `7 * 24 * 60 * 60 * 1000` ms (7 days), fixed in the source. -/
def refreshTtlMs : Nat := 7 * 24 * 60 * 60 * 1000

/-- The value returned by a successful `rotateRefreshToken`. -/
structure RotateResult where
  newPlainToken : String
  ttlMs : Nat
  adminId : Option Nat
  customerId : Option Nat
  familyId : String
deriving DecidableEq, Repr

/-- JS `x || undefined` on a nullable numeric field: `0` and `null` both become
`undefined` (used for `existing.adminId || undefined` in `rotateRefreshToken`). -/
def orUndefined : Option Nat → Option Nat
  | some 0 => none
  | x => x

/-- One store write performed by the rotation protocol, in the order the source
awaits it. -/
inductive StoreOp where
  | createRecord (r : RefreshTokenRecord)
  | revokeById (id : Nat) (now : Nat) (replacedById : Nat)
  | revokeFamilyOp (familyId : String) (now : Nat)
deriving DecidableEq, Repr

/-- Semantics of one store write against the refresh-token table. -/
def applyOp (store : RefreshStore) : StoreOp → RefreshStore
  | .createRecord r => store ++ [r]
  | .revokeById i now rep =>
      store.map (fun r =>
        if r.id = i then { r with revokedAt := some now, replacedById := some rep } else r)
  | .revokeFamilyOp fid now => revokeRefreshFamilyByFamilyId store fid now

/-- The successor record `rotateRefreshToken` creates in the same family:
`prisma.refreshToken.create({ data: { adminId, customerId, familyId, tokenHash,
..., expiresAt } })`. `newId` is the store-assigned surrogate id. -/
def rotationSuccessor (existing : RefreshTokenRecord) (now : Nat)
    (newPlain : String) (newId : Nat) : RefreshTokenRecord :=
  { id := newId,
    adminId := existing.adminId,
    customerId := existing.customerId,
    familyId := existing.familyId,
    tokenHash := hashToken newPlain,
    expiresAt := now + refreshTtlMs,
    revokedAt := none,
    replacedById := none }

/-- `AuthService.rotateRefreshToken(plainToken, meta)` as a trace: the outcome
(success value or thrown `AppError`) together with the sequence of store writes
the source awaits, in source order. On the success path the source first
`create`s the new record, then `update`s the old one with
`{ revokedAt: new Date(), replacedById: newRec.id }`. On the reuse path it
bulk-revokes the family and then throws. -/
def rotateOps (store : RefreshStore) (plainToken : String) (now : Nat)
    (newPlain : String) (newId : Nat) :
    Except AppError RotateResult × List StoreOp :=
  match findRefreshTokenByPlain store plainToken with
  | none => (.error invalidRefreshError, [])
  | some existing =>
    if existing.revokedAt.isSome then
      (.error refreshReuseError, [.revokeFamilyOp existing.familyId now])
    else if existing.expiresAt ≤ now then
      (.error refreshExpiredError, [])
    else
      let newRec := rotationSuccessor existing now newPlain newId
      (.ok { newPlainToken := newPlain,
             ttlMs := refreshTtlMs,
             adminId := orUndefined existing.adminId,
             customerId := orUndefined existing.customerId,
             familyId := existing.familyId },
       [.createRecord newRec, .revokeById existing.id now newRec.id])

/-- `AuthService.rotateRefreshToken`: outcome plus the final persisted store
(all of the trace's writes applied). -/
def rotateRefreshToken (store : RefreshStore) (plainToken : String) (now : Nat)
    (newPlain : String) (newId : Nat) :
    Except AppError RotateResult × RefreshStore :=
  let (res, ops) := rotateOps store plainToken now newPlain newId
  (res, ops.foldl applyOp store)

/-! ## Principals and the Credential Store -/

/-- One row of the Prisma `admin` table, with the fields the auth core selects. -/
structure Admin where
  id : Nat
  name : String
  email : String
  passwordHash : String
  isActive : Bool
  createdAt : Nat
  lastLogin : Option Nat
deriving DecidableEq, Repr

/-- One row of the Prisma `customer` table. -/
structure Customer where
  id : Nat
  name : String
  email : String
  passwordHash : String
  isActive : Bool
  createdAt : Nat
  lastLogin : Option Nat
deriving DecidableEq, Repr

/-- bcrypt (`AuthService.hashPassword`), modelled as an injective tag: the code
relies only on `comparePassword p (hashPassword p) = true` and collision-freedom. -/
def hashPassword (password : String) : String := String.append "bcrypt:" password

/-- `AuthService.comparePassword(password, hash)` via `bcrypt.compare`. -/
def comparePassword (password hash : String) : Bool := hash = hashPassword password

/-- The principal-safe projection the admin endpoints return (`AdminResponse`). -/
structure AdminResponse where
  id : Nat
  name : String
  email : String
  isActive : Bool
  createdAt : Nat
  lastLogin : Option Nat
deriving DecidableEq, Repr

/-- The principal-safe projection of a customer (`CustomerResponse`). -/
structure CustomerResponse where
  id : Nat
  name : String
  email : String
  isActive : Bool
  createdAt : Nat
  lastLogin : Option Nat
deriving DecidableEq, Repr

/-- `AuthService.login(email, password)`: find by email; unknown email throws
`invalidCredentialsError`; a deactivated account throws `accountDeactivatedError`;
a wrong password throws the same `invalidCredentialsError` as an unknown email.
On success it mints a token, updates `lastLogin` and returns the projection.
Returns the outcome together with the admin table after the `lastLogin` write. -/
def login (env : Env) (admins : List Admin) (email password : String) (now : Nat) :
    Except AppError (AdminResponse × SignedToken × Nat) × List Admin :=
  match admins.find? (fun a => a.email = email) with
  | none => (.error invalidCredentialsError, admins)
  | some admin =>
    if admin.isActive = false then
      (.error accountDeactivatedError, admins)
    else if comparePassword password admin.passwordHash = false then
      (.error invalidCredentialsError, admins)
    else
      let token := generateToken env admin.id now
      let expiresAt := now + env.jwtExpiresHours * 60 * 60 * 1000
      let admins' := admins.map (fun a =>
        if a.id = admin.id then { a with lastLogin := some now } else a)
      (.ok ({ id := admin.id, name := admin.name, email := admin.email,
              isActive := admin.isActive, createdAt := admin.createdAt,
              lastLogin := some now }, token, expiresAt), admins')

/-- `AuthService.getAdminById`: `findUnique` by id; missing throws
`adminNotFoundError`; inactive throws `accountDeactivatedError`. -/
def getAdminById (admins : List Admin) (adminId : Nat) : Except AppError AdminResponse :=
  match admins.find? (fun a => a.id = adminId) with
  | none => .error adminNotFoundError
  | some admin =>
    if admin.isActive = false then .error accountDeactivatedError
    else .ok { id := admin.id, name := admin.name, email := admin.email,
               isActive := admin.isActive, createdAt := admin.createdAt,
               lastLogin := admin.lastLogin }

/-- `CustomerService.getCustomerById`: `findUnique` by id; missing throws
`customerNotFoundError`; the record is returned as-is otherwise — the source has
no `isActive` check here. -/
def getCustomerById (customers : List Customer) (id : Nat) :
    Except AppError CustomerResponse :=
  match customers.find? (fun c => c.id = id) with
  | none => .error customerNotFoundError
  | some customer =>
    .ok { id := customer.id, name := customer.name, email := customer.email,
          isActive := customer.isActive, createdAt := customer.createdAt,
          lastLogin := customer.lastLogin }

/-! ## Authorization Guards (`src/middleware/auth.ts`) -/

/-- `authenticateAdmin`: extract token (already done by `extractToken`; `none`
models its absence), verify it, require `type === 'admin'`, resolve the admin.
Tokens minted by `generateToken` always carry `adminId`, so the payload's
`adminId` is read with a default that the well-formed case never uses. -/
def authenticateAdmin (env : Env) (admins : List Admin) (token : Option SignedToken)
    (now : Nat) : Except AppError AdminResponse :=
  match token with
  | none => .error tokenRequiredError
  | some t =>
    match verifyToken env t now with
    | .error e => .error e
    | .ok decoded =>
      if decoded.type ≠ "admin" then .error invalidTokenTypeError
      else getAdminById admins (decoded.adminId.getD 0)

/-- `authenticateCustomer`: extract token, verify it, require
`type === 'customer'`, resolve the customer via `CustomerService.getCustomerById`. -/
def authenticateCustomer (env : Env) (customers : List Customer)
    (token : Option SignedToken) (now : Nat) : Except AppError CustomerResponse :=
  match token with
  | none => .error tokenRequiredError
  | some t =>
    match verifyToken env t now with
    | .error e => .error e
    | .ok decoded =>
      if decoded.type ≠ "customer" then .error invalidTokenTypeError
      else getCustomerById customers (decoded.customerId.getD 0)

/-! ## The cookie-based refresh endpoint (`POST /refresh-token`) -/

/-- The whole persisted database the auth core touches. -/
structure Db where
  admins : List Admin
  customers : List Customer
  refreshTokens : RefreshStore
deriving DecidableEq, Repr

/-- The `POST /refresh-token` route handler: read the `refresh_token` cookie,
rotate, then mint a fresh access token from the rotated owner id
(`rotated.adminId ? generateToken(...) : rotated.customerId ?
generateCustomerToken(...) : ''`) without ever reading the admin or customer
tables. Returns the response outcome and the database afterwards. -/
def refreshTokenEndpoint (env : Env) (db : Db) (refreshCookie : Option String)
    (now : Nat) (newPlain : String) (newId : Nat) :
    Except AppError (Option SignedToken × Nat) × Db :=
  match refreshCookie with
  | none => (.error refreshRequiredError, db)
  | some plain =>
    match rotateRefreshToken db.refreshTokens plain now newPlain newId with
    | (.error e, store') => (.error e, { db with refreshTokens := store' })
    | (.ok rotated, store') =>
      let accessToken : Option SignedToken :=
        match rotated.adminId with
        | some aid => some (generateToken env aid now)
        | none =>
          match rotated.customerId with
          | some cid => some (generateCustomerToken env cid now)
          | none => none
      (.ok (accessToken, now + 15 * 60 * 1000), { db with refreshTokens := store' })

/-! ## CSRF Guard (`src/middleware/csrf.ts`) -/

/-- The part of an Express request `verifyCsrf` inspects: the method, the
`csrf_token` cookie and the `x-csrf-token` header (`none` = absent). -/
structure CsrfRequest where
  method : String
  csrfCookie : Option String
  csrfHeader : Option String
deriving DecidableEq, Repr

/-- The middleware outcome: `next()` or a JSON error response. -/
inductive CsrfOutcome where
  | pass
  | reject (statusCode : Nat) (code : String)
deriving DecidableEq, Repr

/-- JS falsiness of `cookies?.[k]` / `headers[k]`: `undefined` and `''` are falsy. -/
def jsFalsy : Option String → Bool
  | none => true
  | some s => s = ""

/-- JS `String.prototype.toUpperCase()` on an HTTP method name (ASCII),
character by character. -/
def toUpperCase (s : String) : String := String.mk (s.data.map Char.toUpper)

/-- `method === 'POST' || method === 'PUT' || method === 'PATCH' || method === 'DELETE'`
over the upper-cased request method. -/
def unsafeCsrfMethod (method : String) : Bool :=
  method = "POST" || method = "PUT" || method = "PATCH" || method = "DELETE"

/-- `verifyCsrf`: safe methods pass through; for POST/PUT/PATCH/DELETE the
cookie and header must both be present (truthy) and equal, else
`403 CSRF_MISMATCH`. -/
def verifyCsrf (req : CsrfRequest) : CsrfOutcome :=
  if !unsafeCsrfMethod (toUpperCase req.method) then .pass
  else if jsFalsy req.csrfCookie || jsFalsy req.csrfHeader
          || req.csrfCookie != req.csrfHeader
  then .reject 403 "CSRF_MISMATCH"
  else .pass

/-! ## Theorems -/

/-- `rotateRefreshToken` is `rotateOps` with the trace's writes folded into the
store. -/
theorem rotateRefreshToken_eq (store : RefreshStore) (plain : String) (now : Nat)
    (newPlain : String) (newId : Nat) :
    rotateRefreshToken store plain now newPlain newId =
      ((rotateOps store plain now newPlain newId).1,
       ((rotateOps store plain now newPlain newId).2).foldl applyOp store) := rfl

/-- C7: `revokeFamily(familyId)` is idempotent on the persisted store — a second
call (at any later timestamp) changes nothing, because its `where` clause
`{ familyId, revokedAt: null }` matches no row after the first call. -/
theorem revokeFamily_idempotent (store : RefreshStore) (familyId : String)
    (t1 t2 : Nat) :
    revokeRefreshFamilyByFamilyId
        (revokeRefreshFamilyByFamilyId store familyId t1) familyId t2
      = revokeRefreshFamilyByFamilyId store familyId t1 := by
  induction store with
  | nil => rfl
  | cons r rest ih =>
    simp only [revokeRefreshFamilyByFamilyId, List.map_cons, List.cons.injEq] at ih ⊢
    refine ⟨?_, ih⟩
    by_cases h1 : r.familyId = familyId ∧ r.revokedAt = none
    · simp [h1]
    · simp [h1]

/-- C3: presenting a non-revoked token at or after its `expiresAt` fails with
`REFRESH_EXPIRED` and performs no store write at all: the persisted store is
returned unchanged (in particular, no family-wide revocation happens). -/
theorem rotate_expired_unchanged (store : RefreshStore) (plain : String)
    (now : Nat) (newPlain : String) (newId : Nat) (ex : RefreshTokenRecord)
    (h1 : findRefreshTokenByPlain store plain = some ex)
    (h2 : ex.revokedAt = none) (h3 : ex.expiresAt ≤ now) :
    rotateRefreshToken store plain now newPlain newId =
      (.error refreshExpiredError, store) := by
  simp [rotateRefreshToken, rotateOps, h1, h2, h3]

/-- C3 witness: the boundary case — a record expiring exactly at the current
time (`expiresAt = now = 100`) is rejected as expired, with the store intact. -/
theorem rotate_expired_unchanged_witness :
    rotateRefreshToken [⟨1, some 1, none, "f", hashToken "t", 100, none, none⟩]
        "t" 100 "n" 2
      = (.error refreshExpiredError,
         [⟨1, some 1, none, "f", hashToken "t", 100, none, none⟩]) :=
  rotate_expired_unchanged _ _ _ _ _
    ⟨1, some 1, none, "f", hashToken "t", 100, none, none⟩ rfl rfl (by decide)

/-- C1: presenting a plaintext whose stored record is already revoked fails with
`REFRESH_REUSE`, and in the store as persisted when the error is returned every
record of that record's family has `revokedAt` set. -/
theorem rotate_reuse_revokes_family (store : RefreshStore) (plain : String)
    (now : Nat) (newPlain : String) (newId : Nat) (ex : RefreshTokenRecord)
    (h1 : findRefreshTokenByPlain store plain = some ex)
    (h2 : ex.revokedAt.isSome) :
    (rotateRefreshToken store plain now newPlain newId).1 = .error refreshReuseError ∧
    ∀ r ∈ (rotateRefreshToken store plain now newPlain newId).2,
      r.familyId = ex.familyId → r.revokedAt.isSome := by
  have hrot : rotateRefreshToken store plain now newPlain newId =
      (.error refreshReuseError, revokeRefreshFamilyByFamilyId store ex.familyId now) := by
    simp [rotateRefreshToken, rotateOps, h1, h2, applyOp]
  rw [hrot]
  refine ⟨rfl, ?_⟩
  intro r hr hfam
  rw [revokeRefreshFamilyByFamilyId, List.mem_map] at hr
  obtain ⟨a, _, hae⟩ := hr
  by_cases hc : a.familyId = ex.familyId ∧ a.revokedAt = none
  · rw [if_pos hc] at hae
    rw [← hae]
    simp
  · rw [if_neg hc] at hae
    subst hae
    push_neg at hc
    exact Option.isSome_iff_ne_none.mpr (hc hfam)

/-- C1 witness: a family `"f"` holding a revoked record (the one presented) and
a still-active sibling; rotation fails with reuse and both end up revoked. -/
theorem rotate_reuse_revokes_family_witness :
    (rotateRefreshToken
        [⟨1, some 1, none, "f", hashToken "t", 100, some 5, some 2⟩,
         ⟨2, some 1, none, "f", hashToken "u", 200, none, none⟩]
        "t" 50 "n" 3).1 = .error refreshReuseError ∧
    ∀ r ∈ (rotateRefreshToken
        [⟨1, some 1, none, "f", hashToken "t", 100, some 5, some 2⟩,
         ⟨2, some 1, none, "f", hashToken "u", 200, none, none⟩]
        "t" 50 "n" 3).2,
      r.familyId = (⟨1, some 1, none, "f", hashToken "t", 100, some 5,
        some 2⟩ : RefreshTokenRecord).familyId → r.revokedAt.isSome :=
  rotate_reuse_revokes_family _ _ _ _ _
    ⟨1, some 1, none, "f", hashToken "t", 100, some 5, some 2⟩ rfl rfl

/-- C2 counterexample: in a successful rotation the source *creates the
successor first* (`prisma.refreshToken.create`) and only then revokes the
presented record (`prisma.refreshToken.update`). On a store holding one active
record of family `"f"`, the rotation succeeds, its first store write is the
create and its second the revoke — the reverse of the claimed revoke-
before-create ordering — and after the first write alone the store holds two
non-revoked records of family `"f"` simultaneously. -/
theorem rotate_create_before_revoke_cex :
    ((rotateOps [⟨1, some 1, none, "f", hashToken "t", 1000, none, none⟩]
        "t" 50 "n" 2).1.toOption).isSome = true ∧
    (rotateOps [⟨1, some 1, none, "f", hashToken "t", 1000, none, none⟩]
        "t" 50 "n" 2).2 =
      [.createRecord ⟨2, some 1, none, "f", hashToken "n", 50 + refreshTtlMs, none, none⟩,
       .revokeById 1 50 2] ∧
    (applyOp [⟨1, some 1, none, "f", hashToken "t", 1000, none, none⟩]
        (.createRecord ⟨2, some 1, none, "f", hashToken "n", 50 + refreshTtlMs,
          none, none⟩)).countP
      (fun r => decide (r.familyId = "f" ∧ r.revokedAt = none)) = 2 := by
  refine ⟨rfl, rfl, ?_⟩
  decide

/-- C2 (amended): in every successful rotate the two store writes happen in
create-successor-then-revoke-old order (the reverse of revoke-before-create),
so between the writes the presented record and its successor are simultaneously
non-revoked members of the same family; once both writes are applied, every
record carrying the presented record's id is revoked and linked to the
successor. -/
theorem rotate_success_create_then_revoke (store : RefreshStore) (plain : String)
    (now : Nat) (newPlain : String) (newId : Nat) (ex : RefreshTokenRecord)
    (h1 : findRefreshTokenByPlain store plain = some ex)
    (h2 : ex.revokedAt = none) (h3 : now < ex.expiresAt) :
    rotateOps store plain now newPlain newId =
      (.ok { newPlainToken := newPlain, ttlMs := refreshTtlMs,
             adminId := orUndefined ex.adminId,
             customerId := orUndefined ex.customerId,
             familyId := ex.familyId },
       [.createRecord (rotationSuccessor ex now newPlain newId),
        .revokeById ex.id now newId]) ∧
    ex ∈ applyOp store (.createRecord (rotationSuccessor ex now newPlain newId)) ∧
    rotationSuccessor ex now newPlain newId
      ∈ applyOp store (.createRecord (rotationSuccessor ex now newPlain newId)) ∧
    (rotationSuccessor ex now newPlain newId).revokedAt = none ∧
    (rotationSuccessor ex now newPlain newId).familyId = ex.familyId ∧
    ∀ r ∈ (rotateRefreshToken store plain now newPlain newId).2,
      r.id = ex.id → r.revokedAt = some now ∧ r.replacedById = some newId := by
  have hops : rotateOps store plain now newPlain newId =
      (.ok { newPlainToken := newPlain, ttlMs := refreshTtlMs,
             adminId := orUndefined ex.adminId,
             customerId := orUndefined ex.customerId,
             familyId := ex.familyId },
       [.createRecord (rotationSuccessor ex now newPlain newId),
        .revokeById ex.id now newId]) := by
    simp [rotateOps, h1, h2, not_le.mpr h3, rotationSuccessor]
  have hmem : ex ∈ store := List.mem_of_find?_eq_some h1
  refine ⟨hops, ?_, ?_, rfl, rfl, ?_⟩
  · simp [applyOp, hmem]
  · simp [applyOp]
  · intro r hr hid
    rw [rotateRefreshToken_eq, hops] at hr
    simp only [List.foldl_cons, List.foldl_nil, applyOp, List.mem_map] at hr
    obtain ⟨a, _, hae⟩ := hr
    by_cases hc : a.id = ex.id
    · rw [if_pos hc] at hae
      rw [← hae]
      exact ⟨rfl, rfl⟩
    · rw [if_neg hc] at hae
      subst hae
      exact absurd hid hc

/-- C2 (amended) witness: the concrete one-record family of the counterexample,
run through the amended theorem. -/
theorem rotate_success_create_then_revoke_witness :
    rotateOps [⟨1, some 7, none, "g", hashToken "t", 1000, none, none⟩]
        "t" 50 "n" 2 =
      (.ok { newPlainToken := "n", ttlMs := refreshTtlMs,
             adminId := orUndefined (some 7), customerId := orUndefined none,
             familyId := "g" },
       [.createRecord (rotationSuccessor
          ⟨1, some 7, none, "g", hashToken "t", 1000, none, none⟩ 50 "n" 2),
        .revokeById 1 50 2]) ∧
    (⟨1, some 7, none, "g", hashToken "t", 1000, none, none⟩ : RefreshTokenRecord)
      ∈ applyOp [⟨1, some 7, none, "g", hashToken "t", 1000, none, none⟩]
        (.createRecord (rotationSuccessor
          ⟨1, some 7, none, "g", hashToken "t", 1000, none, none⟩ 50 "n" 2)) ∧
    rotationSuccessor ⟨1, some 7, none, "g", hashToken "t", 1000, none, none⟩ 50 "n" 2
      ∈ applyOp [⟨1, some 7, none, "g", hashToken "t", 1000, none, none⟩]
        (.createRecord (rotationSuccessor
          ⟨1, some 7, none, "g", hashToken "t", 1000, none, none⟩ 50 "n" 2)) ∧
    (rotationSuccessor ⟨1, some 7, none, "g", hashToken "t", 1000, none, none⟩
      50 "n" 2).revokedAt = none ∧
    (rotationSuccessor ⟨1, some 7, none, "g", hashToken "t", 1000, none, none⟩
      50 "n" 2).familyId =
      (⟨1, some 7, none, "g", hashToken "t", 1000, none, none⟩ : RefreshTokenRecord).familyId ∧
    ∀ r ∈ (rotateRefreshToken [⟨1, some 7, none, "g", hashToken "t", 1000, none, none⟩]
        "t" 50 "n" 2).2,
      r.id = (⟨1, some 7, none, "g", hashToken "t", 1000, none, none⟩ : RefreshTokenRecord).id →
        r.revokedAt = some 50 ∧ r.replacedById = some 2 :=
  rotate_success_create_then_revoke _ _ _ _ _
    ⟨1, some 7, none, "g", hashToken "t", 1000, none, none⟩ rfl rfl (by decide)

/-- A fresh, well-formed admin token reduces the admin guard to the credential
lookup `getAdminById`. -/
theorem authenticateAdmin_fresh (env : Env) (admins : List Admin)
    (aid tIssue now : Nat)
    (h : now < tIssue + env.jwtExpiresHours * 60 * 60 * 1000) :
    authenticateAdmin env admins (some (generateToken env aid tIssue)) now
      = getAdminById admins aid := by
  simp [authenticateAdmin, verifyToken, jwtVerify, generateToken, jwtSign, jwtMac, h]

/-- A fresh, well-formed customer token reduces the customer guard to the
credential lookup `getCustomerById`. -/
theorem authenticateCustomer_fresh (env : Env) (customers : List Customer)
    (cid tIssue now : Nat)
    (h : now < tIssue + env.jwtExpiresHours * 60 * 60 * 1000) :
    authenticateCustomer env customers (some (generateCustomerToken env cid tIssue)) now
      = getCustomerById customers cid := by
  simp [authenticateCustomer, verifyToken, jwtVerify, generateCustomerToken, jwtSign,
        jwtMac, h]

/-- C4 counterexample: a deactivated customer (`isActive = false`) presenting a
fresh, well-formed customer token is resolved *successfully* by the customer
guard — the response carries `isActive := false` — instead of failing with
`ACCOUNT_DEACTIVATED` as the claim requires: `CustomerService.getCustomerById`
has no active-flag check. -/
theorem customer_guard_inactive_cex :
    authenticateCustomer defaultEnv
        [⟨7, "c", "c@x.com", hashPassword "p", false, 0, none⟩]
        (some (generateCustomerToken defaultEnv 7 0)) 10
      = .ok ⟨7, "c", "c@x.com", false, 0, none⟩ := by
  rfl

/-- C4 (amended): for a well-formed, unexpired access token of the guard's
expected kind, the admin guard fails with `ADMIN_NOT_FOUND` when no admin record
has the embedded id and with `ACCOUNT_DEACTIVATED` when the admin's active flag
is false; the customer guard fails with `CUSTOMER_NOT_FOUND` when no customer
record has the embedded id, but performs no active-flag check at all — it
resolves and returns the customer record as-is, whatever its `isActive` value. -/
theorem guards_resolve_principal (env : Env) (admins : List Admin)
    (customers : List Customer) (aid cid tIssue now : Nat)
    (h : now < tIssue + env.jwtExpiresHours * 60 * 60 * 1000) :
    (admins.find? (fun a => a.id = aid) = none →
      authenticateAdmin env admins (some (generateToken env aid tIssue)) now
        = .error adminNotFoundError) ∧
    (∀ a, admins.find? (fun a => a.id = aid) = some a → a.isActive = false →
      authenticateAdmin env admins (some (generateToken env aid tIssue)) now
        = .error accountDeactivatedError) ∧
    (customers.find? (fun c => c.id = cid) = none →
      authenticateCustomer env customers (some (generateCustomerToken env cid tIssue)) now
        = .error customerNotFoundError) ∧
    (∀ c, customers.find? (fun c => c.id = cid) = some c →
      authenticateCustomer env customers (some (generateCustomerToken env cid tIssue)) now
        = .ok ⟨c.id, c.name, c.email, c.isActive, c.createdAt, c.lastLogin⟩) := by
  rw [authenticateAdmin_fresh env admins aid tIssue now h,
      authenticateCustomer_fresh env customers cid tIssue now h]
  refine ⟨?_, ?_, ?_, ?_⟩
  · intro hf
    simp [getAdminById, hf]
  · intro a hf ha
    simp [getAdminById, hf, ha]
  · intro hf
    simp [getCustomerById, hf]
  · intro c hf
    simp [getCustomerById, hf]

/-- C4 (amended) witness: concrete stores exercising all four branches — empty
admin table, a deactivated admin, empty customer table, and an (active)
customer resolved as-is. -/
theorem guards_resolve_principal_witness :
    authenticateAdmin defaultEnv [] (some (generateToken defaultEnv 1 0)) 10
      = .error adminNotFoundError ∧
    authenticateAdmin defaultEnv [⟨1, "a", "a@x.com", hashPassword "p", false, 0, none⟩]
        (some (generateToken defaultEnv 1 0)) 10
      = .error accountDeactivatedError ∧
    authenticateCustomer defaultEnv [] (some (generateCustomerToken defaultEnv 7 0)) 10
      = .error customerNotFoundError ∧
    authenticateCustomer defaultEnv [⟨7, "c", "c@x.com", hashPassword "q", true, 0, none⟩]
        (some (generateCustomerToken defaultEnv 7 0)) 10
      = .ok ⟨7, "c", "c@x.com", true, 0, none⟩ :=
  ⟨(guards_resolve_principal defaultEnv [] [] 1 7 0 10 (by decide)).1 rfl,
   ((guards_resolve_principal defaultEnv
      [⟨1, "a", "a@x.com", hashPassword "p", false, 0, none⟩] [] 1 7 0 10
      (by decide)).2.1 ⟨1, "a", "a@x.com", hashPassword "p", false, 0, none⟩ rfl rfl),
   (guards_resolve_principal defaultEnv [] [] 1 7 0 10 (by decide)).2.2.1 rfl,
   ((guards_resolve_principal defaultEnv []
      [⟨7, "c", "c@x.com", hashPassword "q", true, 0, none⟩] 1 7 0 10
      (by decide)).2.2.2 ⟨7, "c", "c@x.com", hashPassword "q", true, 0, none⟩ rfl)⟩

/-- C5 counterexample: with the configuration defaults (`JWT_EXPIRES_HOURS`
defaults to `'8'` in `env.ts`), an access token minted at time 0 still verifies
successfully one hour (3 600 000 ms) after issuance — far more than about 15
minutes — instead of failing with `INVALID_TOKEN` as the claim requires. The
~15-minute figure in the source is only the `access_token` *cookie* `maxAge`
at the refresh endpoint, not the JWT's validity. -/
theorem access_token_ttl_cex :
    verifyToken defaultEnv (generateToken defaultEnv 1 0) 3600000
      = .ok ⟨some 1, none, "admin", 28800000⟩ := by
  rfl

/-- C5 (amended): every access token minted by the issuer is valid for
`JWT_EXPIRES_HOURS` hours (default 8, per `env.ts`), for both principal kinds:
verification succeeds strictly before `mint time + 8 h` and fails with
`INVALID_TOKEN` from `mint time + 8 h` on — not after ~15 minutes. -/
theorem access_token_lifetime (aid cid tIssue now : Nat) :
    (now < tIssue + 8 * 60 * 60 * 1000 →
      verifyToken defaultEnv (generateToken defaultEnv aid tIssue) now
          = .ok ⟨some aid, none, "admin", tIssue + 8 * 60 * 60 * 1000⟩ ∧
      verifyToken defaultEnv (generateCustomerToken defaultEnv cid tIssue) now
          = .ok ⟨none, some cid, "customer", tIssue + 8 * 60 * 60 * 1000⟩) ∧
    (tIssue + 8 * 60 * 60 * 1000 ≤ now →
      verifyToken defaultEnv (generateToken defaultEnv aid tIssue) now
          = .error invalidTokenError ∧
      verifyToken defaultEnv (generateCustomerToken defaultEnv cid tIssue) now
          = .error invalidTokenError) := by
  constructor
  · intro h
    constructor <;>
      simp [verifyToken, jwtVerify, generateToken, generateCustomerToken, jwtSign,
            jwtMac, defaultEnv, h]
  · intro h
    constructor <;>
      simp [verifyToken, jwtVerify, generateToken, generateCustomerToken, jwtSign,
            jwtMac, defaultEnv, not_lt.mpr h]

/-- C5 (amended) witness: at one hour both kinds still verify; at exactly eight
hours both fail. -/
theorem access_token_lifetime_witness :
    (verifyToken defaultEnv (generateToken defaultEnv 1 0) 3600001
        = .ok ⟨some 1, none, "admin", 0 + 8 * 60 * 60 * 1000⟩ ∧
     verifyToken defaultEnv (generateCustomerToken defaultEnv 2 0) 3600001
        = .ok ⟨none, some 2, "customer", 0 + 8 * 60 * 60 * 1000⟩) ∧
    (verifyToken defaultEnv (generateToken defaultEnv 1 0) 28800000
        = .error invalidTokenError ∧
     verifyToken defaultEnv (generateCustomerToken defaultEnv 2 0) 28800000
        = .error invalidTokenError) :=
  ⟨(access_token_lifetime 1 2 0 3600001).1 (by decide),
   (access_token_lifetime 1 2 0 28800000).2 (by decide)⟩

/-- C6: round-trip of the Access Token Issuer — for any configured TTL
(`JWT_EXPIRES_HOURS` hours, positive), any principal id and either kind,
verifying a freshly issued token strictly before its expiry returns exactly the
embedded id and kind, and verifying it from its expiry onwards fails with
`INVALID_TOKEN`. -/
theorem issue_verify_roundtrip (env : Env) (id tIssue now : Nat)
    (_httl : 0 < env.jwtExpiresHours) :
    (now < tIssue + env.jwtExpiresHours * 60 * 60 * 1000 →
      verifyToken env (generateToken env id tIssue) now
          = .ok ⟨some id, none, "admin",
                 tIssue + env.jwtExpiresHours * 60 * 60 * 1000⟩ ∧
      verifyToken env (generateCustomerToken env id tIssue) now
          = .ok ⟨none, some id, "customer",
                 tIssue + env.jwtExpiresHours * 60 * 60 * 1000⟩) ∧
    (tIssue + env.jwtExpiresHours * 60 * 60 * 1000 ≤ now →
      verifyToken env (generateToken env id tIssue) now = .error invalidTokenError ∧
      verifyToken env (generateCustomerToken env id tIssue) now
          = .error invalidTokenError) := by
  constructor
  · intro h
    constructor <;>
      simp [verifyToken, jwtVerify, generateToken, generateCustomerToken, jwtSign,
            jwtMac, h]
  · intro h
    constructor <;>
      simp [verifyToken, jwtVerify, generateToken, generateCustomerToken, jwtSign,
            jwtMac, not_lt.mpr h]

/-- C6 witness: a 1-hour TTL, id 0 (the claim's lower bound), verified before
and at expiry. -/
theorem issue_verify_roundtrip_witness :
    (verifyToken ⟨"k", 1⟩ (generateToken ⟨"k", 1⟩ 0 0) 10
        = .ok ⟨some 0, none, "admin", 0 + 1 * 60 * 60 * 1000⟩ ∧
     verifyToken ⟨"k", 1⟩ (generateCustomerToken ⟨"k", 1⟩ 0 0) 10
        = .ok ⟨none, some 0, "customer", 0 + 1 * 60 * 60 * 1000⟩) ∧
    (verifyToken ⟨"k", 1⟩ (generateToken ⟨"k", 1⟩ 0 0) 3600000
        = .error invalidTokenError ∧
     verifyToken ⟨"k", 1⟩ (generateCustomerToken ⟨"k", 1⟩ 0 0) 3600000
        = .error invalidTokenError) :=
  ⟨(issue_verify_roundtrip ⟨"k", 1⟩ 0 0 10 (by decide)).1 (by decide),
   (issue_verify_roundtrip ⟨"k", 1⟩ 0 0 3600000 (by decide)).2 (by decide)⟩

/-- C8: on a mutating method (POST/PUT/PATCH/DELETE), a request whose
`x-csrf-token` header is absent or differs from the `csrf_token` cookie is
rejected with `403 CSRF_MISMATCH`; on a safe method the guard passes the request
through unconditionally, CSRF header or not. -/
theorem verifyCsrf_spec (req : CsrfRequest) :
    ((toUpperCase req.method = "POST" ∨ toUpperCase req.method = "PUT" ∨
      toUpperCase req.method = "PATCH" ∨ toUpperCase req.method = "DELETE") →
     (req.csrfHeader = none ∨ req.csrfHeader ≠ req.csrfCookie) →
     verifyCsrf req = .reject 403 "CSRF_MISMATCH") ∧
    (¬ (toUpperCase req.method = "POST" ∨ toUpperCase req.method = "PUT" ∨
        toUpperCase req.method = "PATCH" ∨ toUpperCase req.method = "DELETE") →
     verifyCsrf req = .pass) := by
  constructor
  · intro hm hh
    have hu : unsafeCsrfMethod (toUpperCase req.method) = true := by
      rcases hm with h | h | h | h <;> simp [unsafeCsrfMethod, h]
    have hcond : (jsFalsy req.csrfCookie || jsFalsy req.csrfHeader
        || req.csrfCookie != req.csrfHeader) = true := by
      rcases hh with h | h
      · simp [jsFalsy, h]
      · simp only [Bool.or_eq_true, bne_iff_ne]
        exact Or.inr fun e => h e.symm
    simp [verifyCsrf, hu, hcond]
  · intro hm
    push_neg at hm
    have hu : unsafeCsrfMethod (toUpperCase req.method) = false := by
      simp [unsafeCsrfMethod, hm.1, hm.2.1, hm.2.2.1, hm.2.2.2]
    simp [verifyCsrf, hu]

/-- C8 witness: a POST with a mismatched header is rejected; a GET with no
header at all passes. -/
theorem verifyCsrf_spec_witness :
    verifyCsrf ⟨"POST", some "abc", some "xyz"⟩ = .reject 403 "CSRF_MISMATCH" ∧
    verifyCsrf ⟨"GET", some "abc", none⟩ = .pass :=
  ⟨(verifyCsrf_spec ⟨"POST", some "abc", some "xyz"⟩).1 (by left; decide)
      (by right; decide),
   (verifyCsrf_spec ⟨"GET", some "abc", none⟩).2 (by decide)⟩

/-- C9: a login whose email matches no admin and a login whose email matches an
active admin but whose password does not verify fail with the *same*
`AppError` value — equal message, status and stable code
(`'Invalid email or password'`, 401, `INVALID_CREDENTIALS`) — so the two causes
are indistinguishable to the caller. -/
theorem login_unified_credentials_error (env : Env) (admins : List Admin)
    (e1 p1 e2 p2 : String) (now1 now2 : Nat) (a : Admin)
    (h1 : admins.find? (fun x => x.email = e1) = none)
    (h2 : admins.find? (fun x => x.email = e2) = some a)
    (h3 : a.isActive = true)
    (h4 : comparePassword p2 a.passwordHash = false) :
    (login env admins e1 p1 now1).1 = .error invalidCredentialsError ∧
    (login env admins e2 p2 now2).1 = .error invalidCredentialsError := by
  constructor
  · simp [login, h1]
  · simp [login, h2, h3, h4]

/-- C9 witness: one stored active admin; a login with an unknown email and a
login with the right email but wrong password both yield `INVALID_CREDENTIALS`. -/
theorem login_unified_credentials_error_witness :
    (login defaultEnv [⟨1, "a", "a@x.com", hashPassword "right", true, 0, none⟩]
        "nobody@x.com" "p" 5).1 = .error invalidCredentialsError ∧
    (login defaultEnv [⟨1, "a", "a@x.com", hashPassword "right", true, 0, none⟩]
        "a@x.com" "wrong" 5).1 = .error invalidCredentialsError :=
  login_unified_credentials_error defaultEnv
    [⟨1, "a", "a@x.com", hashPassword "right", true, 0, none⟩]
    "nobody@x.com" "p" "a@x.com" "wrong" 5 5
    ⟨1, "a", "a@x.com", hashPassword "right", true, 0, none⟩
    rfl rfl rfl (by decide)

/-- On a non-revoked, unexpired record, rotation returns the success value built
from the record's owner fields. -/
theorem rotate_ok_of_active (store : RefreshStore) (plain : String) (now : Nat)
    (newPlain : String) (newId : Nat) (ex : RefreshTokenRecord)
    (h1 : findRefreshTokenByPlain store plain = some ex)
    (h2 : ex.revokedAt = none) (h3 : now < ex.expiresAt) :
    (rotateRefreshToken store plain now newPlain newId).1 =
      .ok { newPlainToken := newPlain, ttlMs := refreshTtlMs,
            adminId := orUndefined ex.adminId,
            customerId := orUndefined ex.customerId,
            familyId := ex.familyId } := by
  simp [rotateRefreshToken, rotateOps, h1, h2, not_le.mpr h3]

/-- C10: the refresh endpoint's outcome never consults the admin or customer
tables — it is invariant under replacing them wholesale — and on a non-revoked,
unexpired record, rotation still succeeds and a fresh access token is minted for
the owning principal even when that principal's `isActive` flag is false: for an
admin-owned record via `generateToken`, for a customer-owned record via
`generateCustomerToken`. Deactivating an account therefore does not invalidate
its refresh-token families. -/
theorem refresh_ignores_principal_state (env : Env) (db : Db)
    (admins2 : List Admin) (customers2 : List Customer) (cookie : Option String)
    (plain newPlain : String) (now newId : Nat) (ex : RefreshTokenRecord)
    (h1 : findRefreshTokenByPlain db.refreshTokens plain = some ex)
    (h2 : ex.revokedAt = none) (h3 : now < ex.expiresAt) :
    ((refreshTokenEndpoint env { db with admins := admins2, customers := customers2 }
        cookie now newPlain newId).1
      = (refreshTokenEndpoint env db cookie now newPlain newId).1) ∧
    (∀ aid, ex.adminId = some aid → aid ≠ 0 →
      (∃ a ∈ db.admins, a.id = aid ∧ a.isActive = false) →
      (refreshTokenEndpoint env db (some plain) now newPlain newId).1
        = .ok (some (generateToken env aid now), now + 15 * 60 * 1000)) ∧
    (∀ cid, ex.adminId = none → ex.customerId = some cid → cid ≠ 0 →
      (∃ c ∈ db.customers, c.id = cid ∧ c.isActive = false) →
      (refreshTokenEndpoint env db (some plain) now newPlain newId).1
        = .ok (some (generateCustomerToken env cid now), now + 15 * 60 * 1000)) := by
  have hfst := rotate_ok_of_active db.refreshTokens plain now newPlain newId ex
    h1 h2 h3
  refine ⟨?_, ?_, ?_⟩
  · cases cookie with
    | none => rfl
    | some p =>
      simp only [refreshTokenEndpoint]
      rcases hrt : rotateRefreshToken db.refreshTokens p now newPlain newId
        with ⟨res, store'⟩
      cases res <;> simp
  · intro aid h4 h5 _
    have hor : orUndefined ex.adminId = some aid := by
      rw [h4]
      cases aid with
      | zero => exact absurd rfl h5
      | succ n => rfl
    rcases hrt : rotateRefreshToken db.refreshTokens plain now newPlain newId
      with ⟨res, store'⟩
    rw [hrt] at hfst
    simp only at hfst
    subst hfst
    simp [refreshTokenEndpoint, hrt, hor]
  · intro cid h4 h5 h6 _
    have horA : orUndefined ex.adminId = none := by rw [h4]; rfl
    have horC : orUndefined ex.customerId = some cid := by
      rw [h5]
      cases cid with
      | zero => exact absurd rfl h6
      | succ n => rfl
    rcases hrt : rotateRefreshToken db.refreshTokens plain now newPlain newId
      with ⟨res, store'⟩
    rw [hrt] at hfst
    simp only at hfst
    subst hfst
    simp [refreshTokenEndpoint, hrt, horA, horC]

/-- C10 witness: two concrete stores. In the first, the sole refresh record is
owned by admin 1, whose admin row is deactivated: the endpoint still rotates and
mints an admin access token, and replacing the principal tables changes nothing.
In the second, the sole refresh record is owned by customer 2, whose customer
row is deactivated: the endpoint still rotates and mints a customer access
token. -/
theorem refresh_ignores_principal_state_witness :
    (refreshTokenEndpoint defaultEnv
        { admins := [], customers := [],
          refreshTokens := [⟨1, some 1, none, "f", hashToken "t", 1000, none, none⟩] }
        (some "t") 50 "n" 2).1
      = (refreshTokenEndpoint defaultEnv
          { admins := [⟨1, "a", "a@x.com", hashPassword "p", false, 0, none⟩],
            customers := [],
            refreshTokens := [⟨1, some 1, none, "f", hashToken "t", 1000, none, none⟩] }
          (some "t") 50 "n" 2).1 ∧
    (refreshTokenEndpoint defaultEnv
        { admins := [⟨1, "a", "a@x.com", hashPassword "p", false, 0, none⟩],
          customers := [],
          refreshTokens := [⟨1, some 1, none, "f", hashToken "t", 1000, none, none⟩] }
        (some "t") 50 "n" 2).1
      = .ok (some (generateToken defaultEnv 1 50), 50 + 15 * 60 * 1000) ∧
    (refreshTokenEndpoint defaultEnv
        { admins := [],
          customers := [⟨2, "c", "c@x.com", hashPassword "q", false, 0, none⟩],
          refreshTokens := [⟨1, none, some 2, "g", hashToken "u", 1000, none, none⟩] }
        (some "u") 50 "n" 2).1
      = .ok (some (generateCustomerToken defaultEnv 2 50), 50 + 15 * 60 * 1000) :=
  ⟨(refresh_ignores_principal_state defaultEnv
      { admins := [⟨1, "a", "a@x.com", hashPassword "p", false, 0, none⟩],
        customers := [],
        refreshTokens := [⟨1, some 1, none, "f", hashToken "t", 1000, none, none⟩] }
      [] [] (some "t") "t" "n" 50 2
      ⟨1, some 1, none, "f", hashToken "t", 1000, none, none⟩
      rfl rfl (by decide)).1,
   (refresh_ignores_principal_state defaultEnv
      { admins := [⟨1, "a", "a@x.com", hashPassword "p", false, 0, none⟩],
        customers := [],
        refreshTokens := [⟨1, some 1, none, "f", hashToken "t", 1000, none, none⟩] }
      [] [] (some "t") "t" "n" 50 2
      ⟨1, some 1, none, "f", hashToken "t", 1000, none, none⟩
      rfl rfl (by decide)).2.1 1 rfl (by decide)
      ⟨⟨1, "a", "a@x.com", hashPassword "p", false, 0, none⟩, by simp, rfl, rfl⟩,
   (refresh_ignores_principal_state defaultEnv
      { admins := [],
        customers := [⟨2, "c", "c@x.com", hashPassword "q", false, 0, none⟩],
        refreshTokens := [⟨1, none, some 2, "g", hashToken "u", 1000, none, none⟩] }
      [] [] (some "u") "u" "n" 50 2
      ⟨1, none, some 2, "g", hashToken "u", 1000, none, none⟩
      rfl rfl (by decide)).2.2 2 rfl rfl (by decide)
      ⟨⟨2, "c", "c@x.com", hashPassword "q", false, 0, none⟩, by simp, rfl, rfl⟩⟩

end ECom
